import Mathlib

/-
Shallow embedding of Bromles/pinger (src/main.rs), a periodic ICMP-probe
daemon, together with proofs of the specification's claims about it.

The program is single-file Rust.  Pure structure is translated directly;
calls into external crates (std's `IpAddr` literal parser, the hickory DNS
resolver, humantime's duration parser, tokio's interval timer, the OS signal
sources, the `ping` crate) are modelled as explicit parameters or as small
definitions whose doc comments say what external behaviour they model.
Durations are in whole seconds (`Nat`); log records are level-tagged
strings, matching the interpolations in the source.
-/

namespace Pinger

/-- Severity of a tracing record: the source emits only `info!` and
`error!` records. -/
inductive LogLevel
  | info
  | error
deriving DecidableEq, Repr

/-- One record handed to the logging sink: a level and the fully
interpolated message string. -/
structure LogRecord where
  level : LogLevel
  msg : String
deriving DecidableEq, Repr

/-- A resolved network address, `std::net::IpAddr`: either four IPv4 octets
or eight IPv6 16-bit segments. -/
inductive IpAddr
  | v4 (a b c d : Nat)
  | v6 (s0 s1 s2 s3 s4 s5 s6 s7 : Nat)
deriving DecidableEq, Repr

/-- Display of an address as interpolated into log messages (Rust's
`Display for IpAddr`); IPv6 is rendered as plain colon-separated hex
groups. -/
def IpAddr.display : IpAddr → String
  | .v4 a b c d =>
      toString a ++ "." ++ toString b ++ "." ++ toString c ++ "." ++ toString d
  | .v6 s0 s1 s2 s3 s4 s5 s6 s7 =>
      String.intercalate ":"
        ([s0, s1, s2, s3, s4, s5, s6, s7].map fun s => String.mk (Nat.toDigits 16 s))

/-- Log-rotation cadence from the CLI (`enum LogRotation` in the source). -/
inductive LogRotation
  | hourly
  | daily
  | weekly
  | monthly
  | yearly
deriving DecidableEq, Repr

/-- `file_rotate::TimeFrequency`, the rotation cadence of the external
log-rotation crate. -/
inductive TimeFrequency
  | hourly
  | daily
  | weekly
  | monthly
  | yearly
deriving DecidableEq, Repr

/-- `map_log_rotation` from the source: the CLI enum mapped onto the
log-rotation crate's frequency enum. -/
def map_log_rotation : LogRotation → TimeFrequency
  | .hourly => .hourly
  | .daily => .daily
  | .weekly => .weekly
  | .monthly => .monthly
  | .yearly => .yearly

/-- Value of a non-empty decimal digit string, `none` on a non-digit. -/
def digitsVal : List Char → Nat → Option Nat
  | [], acc => some acc
  | c :: cs, acc =>
      if c.isDigit then digitsVal cs (acc * 10 + (c.toNat - 48)) else none

/-- Modelled from the spec: `humantime::parse_duration` (external crate) as
used by the `--interval` flag; only whole-second inputs such as `"5s"` or
`"0s"` are modelled, returning the duration in seconds.  The crate accepts
`"0s"` (a zero duration) just like this model does. -/
def parse_duration_model (s : String) : Option Nat :=
  match s.data.getLast? with
  | some c =>
      if c = 's' ∧ s.data.dropLast ≠ [] then digitsVal s.data.dropLast 0
      else none
  | none => none

/-- The external DNS environment consumed by `Args::parse_address`:
fallibility of `TokioResolver::builder_tokio()`, of building the one-shot
current-thread runtime, and the resolver's `lookup_ip`, which returns an
ordered address list.  Errors are already stringified, as the source maps
every error through `to_string()`. -/
structure DnsEnv where
  builder : Except String Unit
  runtimeBuild : Except String Unit
  lookup_ip : String → Except String (List IpAddr)

/-- Result of one call to `Args::parse_address`: the returned value and how
many DNS lookups were issued (network I/O count). -/
structure ResolveOutcome where
  result : Except String IpAddr
  dnsLookups : Nat
deriving Repr

/-- `Args::parse_address` (src/main.rs lines 48-71).  `parseIp` stands for
std's literal `IpAddr` parser (`address_str.parse::<IpAddr>()`, external to
the repository).  If the literal parse succeeds the address is returned at
once; otherwise the resolver is built, a runtime is built, one `lookup_ip`
is awaited, and the first returned address (if any) is the result. -/
def parse_address (parseIp : String → Option IpAddr) (env : DnsEnv)
    (address_str : String) : ResolveOutcome :=
  match parseIp address_str with
  | some addr => ⟨.ok addr, 0⟩
  | none =>
    match env.builder with
    | .error e => ⟨.error e, 0⟩
    | .ok _ =>
      match env.runtimeBuild with
      | .error e => ⟨.error e, 0⟩
      | .ok _ =>
        match env.lookup_ip address_str with
        | .error e => ⟨.error e, 1⟩
        | .ok addrs =>
          match addrs.head? with
          | some address => ⟨.ok address, 1⟩
          | none => ⟨.error "No IP address found", 1⟩

/-- The parsed CLI arguments (`struct Args`): resolved address, probe
interval in seconds, log-rotation cadence. -/
structure Args where
  address : IpAddr
  interval : Nat
  log_rotation : LogRotation
deriving DecidableEq, Repr

/-- Clap-level argument assembly: `--address` goes through
`Args::parse_address`; a resolution failure makes argument parsing fail, so
clap exits the process before `main`'s body runs. -/
def argsParse (parseIp : String → Option IpAddr) (env : DnsEnv)
    (addrStr : String) (interval : Nat) (rot : LogRotation) :
    Except String Args :=
  match (parse_address parseIp env addrStr).result with
  | .error e => .error e
  | .ok a => .ok ⟨a, interval, rot⟩

/-- What one `interval.tick()` dispatch of the loop observes after awaiting
`spawn_blocking(...)`: either the join handle itself failed
(`Err(JoinError)`, stringified by the source), or it joined and delivered
the probe's own `Result` — `Ok(())` for a reply, `Err(e)` for a ping
failure with detail `e`. -/
inductive TickResult
  | joinError (msg : String)
  | probe (res : Except String Unit)
deriving Repr

/-- State of the `run` loop after consuming a finite prefix of tick
results: still looping with the log records emitted so far, or returned
`Err` out of the loop (the `?` on the join result) with the records emitted
before the error. -/
inductive RunState
  | running (logs : List LogRecord)
  | errored (logs : List LogRecord) (err : String)
deriving Repr

/-- The body of `run`'s loop (src/main.rs lines 129-149), iterated over a
finite schedule of tick results.  Each iteration awaits the tick, awaits
the blocking probe, then either propagates a join error via `?` or emits
exactly one log record: `info!("Sent ping to {}", addr)` on `Ok`,
`error!("Failed to ping {}, error: {}", addr, err)` on `Err`. -/
def runLoop (addr : String) : List TickResult → List LogRecord → RunState
  | [], logs => .running logs
  | .joinError m :: _, logs => .errored logs m
  | .probe (.ok _) :: rest, logs =>
      runLoop addr rest (logs ++ [⟨.info, "Sent ping to " ++ addr⟩])
  | .probe (.error err) :: rest, logs =>
      runLoop addr rest
        (logs ++ [⟨.error, "Failed to ping " ++ addr ++ ", error: " ++ err⟩])

/-- Modelled from the spec: `tokio::time::interval` (external crate) panics
with this message when handed a zero period; `run` constructs the interval
before entering its loop. -/
def tokioIntervalPanicMsg : String := "`period` must be non-zero."

/-- Outcome of `run` (src/main.rs lines 125-150) on a finite schedule:
the interval constructor panics on a zero duration, otherwise the loop
runs. -/
inductive RunOutcome
  | panicked (msg : String)
  | looping (logs : List LogRecord)
  | errored (logs : List LogRecord) (err : String)
deriving Repr

/-- `run`: builds `tokio::time::interval(args.interval)` — which panics on
a zero period — and then drives `runLoop` over the given tick results. -/
def run (interval : Nat) (addr : String) (ticks : List TickResult) :
    RunOutcome :=
  if interval = 0 then .panicked tokioIntervalPanicMsg
  else
    match runLoop addr ticks [] with
    | .running logs => .looping logs
    | .errored logs e => .errored logs e

/-- The log record §4.3 of the spec promises for one probe outcome:
`"Sent ping to {target}"` at info on success, `"Failed to ping {target},
error: {detail}"` at error on failure.  Stated from the spec's words, to be
compared with `runLoop`'s behaviour. -/
def specLogRecord (addr : String) : Except String Unit → LogRecord
  | .ok _ => ⟨.info, "Sent ping to " ++ addr⟩
  | .error e => ⟨.error, "Failed to ping " ++ addr ++ ", error: " ++ e⟩

/-- Which branch of `main`'s `tokio::select!` resolved first: `run`
returning its terminal `Err`, or the shutdown signal. -/
inductive SelectWinner
  | runErrored (err : String)
  | signal
deriving DecidableEq, Repr

/-- The records `main` itself emits after the select resolves
(src/main.rs lines 101-112): `error!("Error: {}", err)` when `run` returned
`Err`, `info!("Shutting down")` when a signal won. -/
def mainLogs : SelectWinner → List LogRecord
  | .runErrored err => [⟨.error, "Error: " ++ err⟩]
  | .signal => [⟨.info, "Shutting down"⟩]

/-- The process exit status determined by `main`'s select: `fn main()`
returns `()` after `block_on` in every branch — it never calls
`process::exit` and has no `Result` return type — so the process exits with
status 0 whichever branch won. -/
def mainExitCode : SelectWinner → Nat
  | .runErrored _ => 0
  | .signal => 0

/-- An OS termination signal as raced by `shutdown_signal`: Ctrl+C
(interrupt) or SIGTERM. -/
inductive Signal
  | ctrlC
  | terminate
deriving DecidableEq, Repr

/-- `shutdown_signal` (src/main.rs lines 152-174) observed against the
stream of signals the OS delivers to the process, in arrival order: its
`tokio::select!` over the two listeners resolves at the first arriving
signal of either kind and the function returns; later arrivals are never
awaited.  `none` means no signal ever arrives and the future stays
pending. -/
def shutdown_signal (sigs : List Signal) : Option Signal :=
  sigs.head?

/-- Observable effect of `main` when signals arrive while `run` is still
looping: the select's signal branch runs exactly once, emitting the single
`"Shutting down"` record, and `main` returns once, so the process performs
exactly one exit.  The pair is (records emitted by `main`, number of
process exits). -/
def mainOnSignals (sigs : List Signal) : List LogRecord × Nat :=
  match shutdown_signal sigs with
  | some _ => ([⟨.info, "Shutting down"⟩], 1)
  | none => ([], 0)

/-- Log records visible from a whole process run: if clap's argument
parsing fails (address resolution failed), the process exits before the
logging subscriber and the loop ever start, producing no records;
otherwise `run` races the signal listener, and a terminal `run` error is
logged once by `main`. -/
def runOutcomeLogs : RunOutcome → List LogRecord
  | .panicked _ => []
  | .looping logs => logs
  | .errored logs e => logs ++ mainLogs (.runErrored e)

/-- End-to-end log stream of one process run on a given tick schedule,
starting from raw CLI inputs. -/
def programLogs (parseIp : String → Option IpAddr) (env : DnsEnv)
    (addrStr : String) (interval : Nat) (rot : LogRotation)
    (ticks : List TickResult) : List LogRecord :=
  match argsParse parseIp env addrStr interval rot with
  | .error _ => []
  | .ok args => runOutcomeLogs (run args.interval args.address.display ticks)

/-- One step of `run`'s await sequence, reified as an event: the tick
timer firing for dispatch `n`, the blocking probe for dispatch `n` being
spawned, and dispatch `n`'s result being logged. -/
inductive Event
  | tick (n : Nat)
  | dispatch (n : Nat)
  | logged (n : Nat)
deriving DecidableEq, Repr

/-- Total order key on events: dispatch `n`'s three phases sort between
those of dispatch `n - 1` and `n + 1`. -/
def Event.key : Event → Nat
  | .tick n => 3 * n
  | .dispatch n => 3 * n + 1
  | .logged n => 3 * n + 2

/-- The event trace of `run`'s loop starting at dispatch number `n`: the
single task awaits the tick, awaits the spawned probe, logs the result,
and only then loops; a join error returns out of the loop after the
dispatch, before any log. -/
def traceFrom (n : Nat) : List TickResult → List Event
  | [] => []
  | .probe _ :: rest => .tick n :: .dispatch n :: .logged n :: traceFrom (n + 1) rest
  | .joinError _ :: _ => [.tick n, .dispatch n]

/-- The event trace of `run` over a finite tick schedule. -/
def runTrace (ticks : List TickResult) : List Event :=
  traceFrom 0 ticks

/-- Stub literal-IP parser used to instantiate theorems at concrete inputs:
recognises the single literal `"127.0.0.1"`. -/
def parseIpStub : String → Option IpAddr :=
  fun s => if s = "127.0.0.1" then some (IpAddr.v4 127 0 0 1) else none

/-- Stub literal-IP parser that recognises no literal at all. -/
def parseIpNone : String → Option IpAddr :=
  fun _ => none

/-- Stub DNS environment whose lookup answers `"example.com"` with two
addresses and everything else with an error. -/
def dnsStubOne : DnsEnv :=
  ⟨.ok (), .ok (), fun s =>
    if s = "example.com" then
      .ok [IpAddr.v4 93 184 216 34, IpAddr.v6 1 2 3 4 5 6 7 8]
    else .error "NXDOMAIN"⟩

/-- Stub DNS environment whose lookup always answers with an empty address
list. -/
def dnsStubEmpty : DnsEnv :=
  ⟨.ok (), .ok (), fun _ => .ok []⟩

/-! Helper lemmas about the loop and its trace. -/

/-- Running the loop over a prefix of probe outcomes appends exactly the
spec's record for each outcome, in order, and then continues with the rest
of the schedule. -/
theorem runLoop_map_probe_append (addr : String)
    (rs : List (Except String Unit)) (ts : List TickResult)
    (acc : List LogRecord) :
    runLoop addr (rs.map TickResult.probe ++ ts) acc =
      runLoop addr ts (acc ++ rs.map (specLogRecord addr)) := by
  induction rs generalizing acc with
  | nil => simp
  | cons r rest ih =>
    cases r with
    | ok u => simp [runLoop, specLogRecord, ih]
    | error e => simp [runLoop, specLogRecord, ih]

/-- Every event in the trace starting at dispatch `n` has key at least
`3 * n`. -/
theorem traceFrom_key_lb (ticks : List TickResult) :
    ∀ n e, e ∈ traceFrom n ticks → 3 * n ≤ e.key := by
  induction ticks with
  | nil => intro n e he; simp [traceFrom] at he
  | cons t rest ih =>
    intro n e he
    cases t with
    | joinError m =>
      simp [traceFrom] at he
      rcases he with rfl | rfl <;> simp [Event.key]
    | probe r =>
      simp [traceFrom] at he
      rcases he with rfl | rfl | rfl | h
      · simp [Event.key]
      · simp [Event.key]
      · simp [Event.key]
      · have := ih (n + 1) e h
        omega

/-- The trace is strictly sorted by event key: the loop's await sequence
emits events in strictly increasing phase order. -/
theorem traceFrom_sorted (ticks : List TickResult) :
    ∀ n, (traceFrom n ticks).Pairwise (fun a b => a.key < b.key) := by
  induction ticks with
  | nil => intro n; simp [traceFrom]
  | cons t rest ih =>
    intro n
    cases t with
    | joinError m =>
      simp [traceFrom, List.pairwise_cons, Event.key]
    | probe r =>
      simp only [traceFrom]
      refine List.Pairwise.cons ?_ (List.Pairwise.cons ?_ (List.Pairwise.cons ?_ (ih (n + 1))))
      · intro b hb
        rcases List.mem_cons.mp hb with rfl | hb
        · simp only [Event.key]; omega
        · rcases List.mem_cons.mp hb with rfl | hb
          · simp only [Event.key]; omega
          · have := traceFrom_key_lb rest (n + 1) b hb
            simp only [Event.key] at this ⊢
            omega
      · intro b hb
        rcases List.mem_cons.mp hb with rfl | hb
        · simp only [Event.key]; omega
        · have := traceFrom_key_lb rest (n + 1) b hb
          simp only [Event.key] at this ⊢
          omega
      · intro b hb
        have := traceFrom_key_lb rest (n + 1) b hb
        simp only [Event.key] at this ⊢
        omega

/-- If dispatch `n + 1` appears in a trace that starts no later than
dispatch `n`, then dispatch `n`'s log event appears in that trace too. -/
theorem logged_mem_of_dispatch_succ_mem (ticks : List TickResult) :
    ∀ k n, k ≤ n → Event.dispatch (n + 1) ∈ traceFrom k ticks →
      Event.logged n ∈ traceFrom k ticks := by
  induction ticks with
  | nil => intro k n _ h; simp [traceFrom] at h
  | cons t rest ih =>
    intro k n hkn h
    cases t with
    | joinError m =>
      simp [traceFrom] at h
      omega
    | probe r =>
      rcases Nat.eq_or_lt_of_le hkn with rfl | hlt
      · simp [traceFrom]
      · simp [traceFrom] at h ⊢
        rcases h with h | h
        · omega
        · exact Or.inr (ih (k + 1) n hlt h)

/-- In the trace, the log event of dispatch `n` strictly precedes the
dispatch event of dispatch `n + 1`. -/
theorem logged_lt_dispatch_succ (ticks : List TickResult) {n i j : Nat}
    (hi : (runTrace ticks)[i]? = some (Event.logged n))
    (hj : (runTrace ticks)[j]? = some (Event.dispatch (n + 1))) : i < j := by
  by_contra hle
  push_neg at hle
  obtain ⟨hi', hieq⟩ := List.getElem?_eq_some.mp hi
  obtain ⟨hj', hjeq⟩ := List.getElem?_eq_some.mp hj
  rcases Nat.lt_or_ge j i with hji | hij
  · have hp : (runTrace ticks).Pairwise (fun a b => a.key < b.key) :=
      traceFrom_sorted ticks 0
    have := List.pairwise_iff_getElem.mp hp j i hj' hi' hji
    rw [hieq, hjeq] at this
    simp only [Event.key] at this
    omega
  · have hij' : i = j := Nat.le_antisymm hij hle
    subst hij'
    rw [hieq] at hjeq
    simp at hjeq

/-! The claims. -/

/-- Claim C1: for every tick dispatched by the scheduler loop, after the
probe executor's result is awaited exactly one log record is emitted — the
info record `"Sent ping to {target}"` on `Success` and the error record
`"Failed to ping {target}, error: {detail}"` on `Failure(detail)`: over any
finite sequence of probe outcomes, the loop's log is exactly one
spec-prescribed record per outcome, in order. -/
theorem probe_loop_one_log_per_dispatch (addr : String)
    (rs : List (Except String Unit)) :
    runLoop addr (rs.map TickResult.probe) [] =
      RunState.running (rs.map (specLogRecord addr)) := by
  have h := runLoop_map_probe_append addr rs [] []
  simpa [runLoop] using h

/-- Claim C2: probe dispatches are strictly sequential — in the trace of
the loop's await sequence, whenever dispatch `n + 1` occurs, dispatch `n`'s
result was logged at a strictly earlier position, so at most one probe is
in flight and log records never reorder relative to dispatch order. -/
theorem dispatches_strictly_sequential (ticks : List TickResult) (n j : Nat)
    (hj : (runTrace ticks)[j]? = some (Event.dispatch (n + 1))) :
    (∃ i, i < j ∧ (runTrace ticks)[i]? = some (Event.logged n)) ∧
    ∀ i, (runTrace ticks)[i]? = some (Event.logged n) → i < j := by
  have hmemd : Event.dispatch (n + 1) ∈ runTrace ticks := by
    obtain ⟨hj', hjeq⟩ := List.getElem?_eq_some.mp hj
    exact hjeq ▸ List.getElem_mem hj'
  have hmeml : Event.logged n ∈ runTrace ticks :=
    logged_mem_of_dispatch_succ_mem ticks 0 n (Nat.zero_le n) hmemd
  obtain ⟨i, hilt, hieq⟩ := List.mem_iff_getElem.mp hmeml
  have hi : (runTrace ticks)[i]? = some (Event.logged n) :=
    List.getElem?_eq_some.mpr ⟨hilt, hieq⟩
  exact ⟨⟨i, logged_lt_dispatch_succ ticks hi hj, hi⟩,
    fun i hi => logged_lt_dispatch_succ ticks hi hj⟩

/-- Witness for C2 at a concrete schedule of two successful probes: in its
trace, dispatch 1 sits at index 4 and dispatch 0's log event precedes it. -/
theorem dispatches_strictly_sequential_witness :
    (∃ i, i < 4 ∧
      (runTrace [TickResult.probe (Except.ok ()),
        TickResult.probe (Except.ok ())])[i]? = some (Event.logged 0)) ∧
    ∀ i, (runTrace [TickResult.probe (Except.ok ()),
        TickResult.probe (Except.ok ())])[i]? = some (Event.logged 0) → i < 4 :=
  dispatches_strictly_sequential
    [TickResult.probe (Except.ok ()), TickResult.probe (Except.ok ())] 0 4 rfl

/-- Claim C3: a probe failure never terminates the scheduler loop and never
propagates as an error to the loop's caller — for every finite sequence of
probe outcomes (successes or failures alike) the loop is still running,
having handled every tick, and is in no error state. -/
theorem probe_failure_never_terminates_loop (addr : String)
    (rs : List (Except String Unit)) :
    (∃ logs, runLoop addr (rs.map TickResult.probe) [] = RunState.running logs
        ∧ logs.length = rs.length) ∧
    ∀ logs e, runLoop addr (rs.map TickResult.probe) [] ≠ RunState.errored logs e := by
  have h := runLoop_map_probe_append addr rs [] []
  simp only [List.append_nil, List.nil_append] at h
  rw [show rs.map TickResult.probe = rs.map TickResult.probe ++ [] by simp] at *
  refine ⟨⟨rs.map (specLogRecord addr), ?_, by simp⟩, ?_⟩
  · simpa [runLoop] using h
  · intro logs e hcontra
    rw [h] at hcontra
    simp [runLoop] at hcontra

/-- Claim C4 counterexample: when the scheduler loop terminates with an
internal error (`run` returned `Err`), `main` still exits with status 0 —
`fn main()` returns `()` after logging the error — refuting the claimed
non-zero exit status. -/
theorem internal_error_exit_code_zero_cex :
    mainExitCode (SelectWinner.runErrored "task 42 panicked") = 0 := rfl

/-- Claim C4 (amended): the process exit status is 0 on clean shutdown via
a termination signal, and it is also 0 when the scheduler loop terminates
with an internal error — the error is logged by `main`, but `main` returns
normally, so the exit status does not distinguish the two cases. -/
theorem exit_code_always_zero :
    mainExitCode SelectWinner.signal = 0 ∧
    ∀ e, mainExitCode (SelectWinner.runErrored e) = 0 ∧
      mainLogs (SelectWinner.runErrored e) =
        [⟨LogLevel.error, "Error: " ++ e⟩] :=
  ⟨rfl, fun _ => ⟨rfl, rfl⟩⟩

/-- Claim C5: an error from the task-dispatch mechanism itself (a failed
`spawn_blocking` join, as opposed to a probe outcome) is fatal to the
scheduler loop — it ends the loop with exactly the records emitted before
it and propagates as the loop's terminal error value — and `main` then logs
it exactly once at process level. -/
theorem dispatch_error_fatal_logged_once (addr : String)
    (pre : List (Except String Unit)) (m : String) (post : List TickResult) :
    runLoop addr (pre.map TickResult.probe ++ TickResult.joinError m :: post) []
        = RunState.errored (pre.map (specLogRecord addr)) m ∧
    mainLogs (SelectWinner.runErrored m) = [⟨LogLevel.error, "Error: " ++ m⟩] ∧
    (mainLogs (SelectWinner.runErrored m)).length = 1 := by
  refine ⟨?_, rfl, rfl⟩
  have h := runLoop_map_probe_append addr pre (TickResult.joinError m :: post) []
  simpa [runLoop] using h

/-- Claim C6: for every input string that the literal IPv4/IPv6 parser
accepts, `Args::parse_address` returns exactly that parsed address and
issues zero DNS lookups (no network I/O), whatever the resolver environment
would have answered. -/
theorem literal_ip_no_dns (parseIp : String → Option IpAddr) (env : DnsEnv)
    (s : String) (a : IpAddr) (h : parseIp s = some a) :
    parse_address parseIp env s = ⟨Except.ok a, 0⟩ := by
  simp [parse_address, h]

/-- Witness for C6 at the literal `"127.0.0.1"` against a live-looking DNS
stub: the literal is returned with zero lookups. -/
theorem literal_ip_no_dns_witness :
    parse_address parseIpStub dnsStubOne "127.0.0.1" =
      ⟨Except.ok (IpAddr.v4 127 0 0 1), 0⟩ :=
  literal_ip_no_dns parseIpStub dnsStubOne "127.0.0.1"
    (IpAddr.v4 127 0 0 1) rfl

/-- Claim C7: for every input string the literal parser rejects and for
which the DNS resolver returns a non-empty ordered address list (with
resolver and runtime construction succeeding), `Args::parse_address`
returns the first address of that list. -/
theorem dns_first_address (parseIp : String → Option IpAddr) (env : DnsEnv)
    (s : String) (a : IpAddr) (rest : List IpAddr)
    (h1 : parseIp s = none) (h2 : env.builder = Except.ok ())
    (h3 : env.runtimeBuild = Except.ok ())
    (h4 : env.lookup_ip s = Except.ok (a :: rest)) :
    (parse_address parseIp env s).result = Except.ok a := by
  simp [parse_address, h1, h2, h3, h4]

/-- Witness for C7 at the hostname `"example.com"`, which the stub resolver
answers with an IPv4 address followed by an IPv6 one: the first (IPv4)
address is returned. -/
theorem dns_first_address_witness :
    (parse_address parseIpStub dnsStubOne "example.com").result =
      Except.ok (IpAddr.v4 93 184 216 34) :=
  dns_first_address parseIpStub dnsStubOne "example.com"
    (IpAddr.v4 93 184 216 34) [IpAddr.v6 1 2 3 4 5 6 7 8] rfl rfl rfl rfl

/-- Claim C8: when the literal parse fails and the DNS lookup yields zero
addresses or an error, address resolution fails, and — because the failure
happens inside clap's value parser, before the loop starts — the whole run
produces no log records at all, in particular no `"Sent ping"` record, on
any tick schedule. -/
theorem resolution_failure_aborts_startup (parseIp : String → Option IpAddr)
    (env : DnsEnv) (s : String) (interval : Nat) (rot : LogRotation)
    (h1 : parseIp s = none)
    (h2 : env.lookup_ip s = Except.ok [] ∨ ∃ e, env.lookup_ip s = Except.error e) :
    (∃ e, (parse_address parseIp env s).result = Except.error e) ∧
    ∀ ticks, programLogs parseIp env s interval rot ticks = [] := by
  have hres : ∃ e, (parse_address parseIp env s).result = Except.error e := by
    obtain ⟨b, rt, lk⟩ := env
    simp only at h2
    cases b with
    | error e => exact ⟨e, by simp [parse_address, h1]⟩
    | ok u =>
      cases rt with
      | error e => exact ⟨e, by simp [parse_address, h1]⟩
      | ok u2 =>
        rcases h2 with h2 | ⟨e, h2⟩
        · exact ⟨"No IP address found", by simp [parse_address, h1, h2]⟩
        · exact ⟨e, by simp [parse_address, h1, h2]⟩
  refine ⟨hres, ?_⟩
  intro ticks
  obtain ⟨e, he⟩ := hres
  simp [programLogs, argsParse, he]

/-- Witness for C8 at a hostname the stub cannot parse as a literal and the
empty-answer DNS stub: resolution errors and the whole run logs nothing. -/
theorem resolution_failure_aborts_startup_witness :
    (∃ e, (parse_address parseIpNone dnsStubEmpty "nohost.invalid").result =
      Except.error e) ∧
    ∀ ticks, programLogs parseIpNone dnsStubEmpty "nohost.invalid" 5
      LogRotation.daily ticks = [] :=
  resolution_failure_aborts_startup parseIpNone dnsStubEmpty "nohost.invalid"
    5 LogRotation.daily rfl (Or.inl rfl)

/-- Claim C9: shutdown is idempotent — for any two termination signals in
quick succession (followed by any further arrivals), `main` emits exactly
one `"Shutting down"` info record and the process performs exactly one
exit, the select having resolved at the first signal. -/
theorem shutdown_idempotent (s1 s2 : Signal) (rest : List Signal) :
    mainOnSignals (s1 :: s2 :: rest) =
      ([⟨LogLevel.info, "Shutting down"⟩], 1) ∧
    (mainOnSignals (s1 :: s2 :: rest)).1.count
      ⟨LogLevel.info, "Shutting down"⟩ = 1 ∧
    (mainOnSignals (s1 :: s2 :: rest)).2 = 1 := by
  refine ⟨rfl, ?_, rfl⟩
  simp [mainOnSignals, shutdown_signal]

/-- Claim C10: positivity of the probe interval is an unchecked
precondition — the argument parser accepts `"0s"` as a zero duration, and
`run` with a zero interval panics while constructing the periodic timer
(tokio's interval assertion) rather than returning the loop's typed error
or being rejected at configuration time. -/
theorem zero_interval_accepted_then_panics :
    parse_duration_model "0s" = some 0 ∧
    ∀ addr ticks, run 0 addr ticks = RunOutcome.panicked tokioIntervalPanicMsg ∧
      ∀ logs e, run 0 addr ticks ≠ RunOutcome.errored logs e := by
  refine ⟨by decide, fun addr ticks => ⟨rfl, fun logs e h => by simp [run] at h⟩⟩

end Pinger
